import Mathlib

/-!
Shallow embedding of the color-remapping core of the Video Color Changer
application (src/main.py): the Mapping data model, the frame compositor
used by `VideoPlayer.update_frame` and `VideoPlayer.apply_and_save`, the
video-session position logic, the export routine, and the mapping-list
management (`add_mapping` / `remove_mapping` / `load_new_video`).

Pixels are 3-channel BGR triples of naturals (the program stores uint8;
none of the verified logic depends on the 0..255 bound, only on the
per-channel comparisons performed by `cv2.inRange`).
-/

/-- One BGR pixel / color triple. -/
structure Color where
  b : Nat
  g : Nat
  r : Nat
deriving DecidableEq, Repr

/-- A color mapping: per-channel inclusive lower/upper thresholds
(`lower_color`, `upper_color` in `ColorMappingWidget`) and the
replacement color (`new_line_color`). -/
structure Mapping where
  lower : Color
  upper : Color
  replacement : Color
deriving DecidableEq, Repr

/-- A frame: a 2-D grid of pixels (rows of columns). -/
abbrev Frame := List (List Color)

/-- `cv2.inRange` at one pixel: true iff every channel lies inside the
mapping's inclusive `[lower, upper]` bounds. -/
def maskPixel (m : Mapping) (p : Color) : Bool :=
  decide (m.lower.b ≤ p.b ∧ p.b ≤ m.upper.b ∧
          m.lower.g ≤ p.g ∧ p.g ≤ m.upper.g ∧
          m.lower.r ≤ p.r ∧ p.r ≤ m.upper.r)

/-- `mask = cv2.inRange(original_frame, mw.lower_color, mw.upper_color)`:
the per-pixel boolean mask of a whole frame. -/
def maskFrame (m : Mapping) (F : Frame) : List (List Bool) :=
  F.map (List.map (maskPixel m))

/-- `frame[mask != 0] = mw.new_line_color`: overwrite with `c` every pixel
of `out` whose mask entry is true. -/
def applyMask (mask : List (List Bool)) (c : Color) (out : Frame) : Frame :=
  List.zipWith (fun mrow orow => List.zipWith (fun bit q => if bit then c else q) mrow orow)
    mask out

/-- The frame compositor (the `for mw in self.mappings` loop of
`update_frame` lines 333-337 and `apply_and_save` lines 376-378): the
output starts as a copy of the frame, and for each mapping in order the
mask is computed from the ORIGINAL frame and applied to the output. -/
def composite (original : Frame) (mappings : List Mapping) : Frame :=
  mappings.foldl (fun out m => applyMask (maskFrame m original) m.replacement out) original

/-- What the compositor does to one pixel, as a function of that pixel of
the original frame alone: fold the mappings, each testing the original
pixel and overwriting the accumulator on a match. -/
def compositePixel (mappings : List Mapping) (p : Color) : Color :=
  mappings.foldl (fun cur m => if maskPixel m p then m.replacement else cur) p

/-- The pixel of a frame at row `i`, column `j`, if present. -/
def pixelAt (F : Frame) (i j : Nat) : Option Color :=
  F[i]?.bind (fun row => row[j]?)

-- Pointwise characterization of the compositor ------------------------------

lemma zipWith_mask_row (m : Mapping) (c : Color) (row : List Color) (k : Color → Color) :
    List.zipWith (fun bit q => if bit then c else q)
        (row.map (maskPixel m)) (row.map k) =
      row.map (fun p => if maskPixel m p then c else k p) := by
  induction row with
  | nil => rfl
  | cons p rest ih => simp [List.zipWith, ih]

lemma applyMask_map (m : Mapping) (c : Color) (O : Frame) (k : Color → Color) :
    applyMask (maskFrame m O) c (O.map (List.map k)) =
      O.map (List.map (fun p => if maskPixel m p then c else k p)) := by
  induction O with
  | nil => rfl
  | cons row rest ih =>
    simp only [maskFrame, List.map, applyMask, List.zipWith] at *
    exact congrArg₂ List.cons (zipWith_mask_row m c row k) ih

lemma composite_foldl_general (O : Frame) (ms : List Mapping) (k : Color → Color) :
    ms.foldl (fun out m => applyMask (maskFrame m O) m.replacement out) (O.map (List.map k)) =
      O.map (List.map (fun p =>
        ms.foldl (fun cur m => if maskPixel m p then m.replacement else cur) (k p))) := by
  induction ms generalizing k with
  | nil => rfl
  | cons m rest ih =>
    simp only [List.foldl, applyMask_map m m.replacement O k]
    exact ih (fun p => if maskPixel m p then m.replacement else k p)

/-- The compositor acts pixelwise: each output pixel is `compositePixel` of
the corresponding original pixel. -/
lemma composite_eq_map (O : Frame) (ms : List Mapping) :
    composite O ms = O.map (List.map (compositePixel ms)) := by
  have h := composite_foldl_general O ms id
  simpa [composite, compositePixel, List.map_id] using h

lemma pixelAt_composite (O : Frame) (ms : List Mapping) (i j : Nat) :
    pixelAt (composite O ms) i j = (pixelAt O i j).map (compositePixel ms) := by
  simp only [composite_eq_map, pixelAt, List.getElem?_map]
  cases O[i]? with
  | none => rfl
  | some row => simp [List.getElem?_map]

-- Video session and application state ---------------------------------------

/-- An opened video source (`self.cap` when `isOpened()`): its decoded
frames, its reported width, height and frame rate, and its current
position (`CAP_PROP_POS_FRAMES`). -/
structure Session where
  frames : List Frame
  width : Nat
  height : Nat
  fps : Nat
  pos : Nat
deriving DecidableEq, Repr

/-- The `VideoPlayer` state relevant to the core logic: the optional open
session (`self.cap`, `none` when the capture is absent or not opened), the
play flag (`self.playing`; the timer runs exactly when it is true), and
the ordered mapping list (`self.mappings`). -/
structure AppState where
  session : Option Session
  playing : Bool
  mappings : List Mapping
deriving DecidableEq, Repr

/-- Result of one frame-advance step. -/
inductive ReadResult where
  | frame : Frame → ReadResult
  | endOfStream : ReadResult
  | noSession : ReadResult
deriving DecidableEq, Repr

/-- The session-advance part of `VideoPlayer.update_frame` (lines 307-324):
with no open capture it does nothing; at or past the end it stops playback,
rewinds the position to 0 and yields no frame; otherwise `cap.read()`
returns the frame at the current position and advances the position. -/
def nextFrame (st : AppState) : ReadResult × AppState :=
  match st.session with
  | none => (ReadResult.noSession, st)
  | some s =>
    if h : s.frames.length ≤ s.pos then
      (ReadResult.endOfStream,
       { st with session := some { s with pos := 0 }, playing := false })
    else
      (ReadResult.frame (s.frames.get ⟨s.pos, Nat.lt_of_not_le h⟩),
       { st with session := some { s with pos := s.pos + 1 } })

/-- `VideoPlayer.update_frame` in full: advance the session one frame and,
when a frame was read, composite it with the current mappings for display. -/
def update_frame (st : AppState) : Option Frame × AppState :=
  match nextFrame st with
  | (ReadResult.frame f, st1) => (some (composite f st1.mappings), st1)
  | (_, st1) => (none, st1)

-- Export (`VideoPlayer.apply_and_save`) -------------------------------------

/-- Result reported to the user by `apply_and_save`. -/
inductive SaveResult where
  | noVideoWarning : SaveResult
  | cancelled : SaveResult
  | savedNotice : SaveResult
deriving DecidableEq, Repr

/-- Observable effects of one export: the `(width, height, fps)` the
`cv2.VideoWriter` was constructed with (`none` if it was never
constructed), the frames passed to `out.write`, the frames the sink
actually stored (`write` on a writer that failed to open stores nothing),
and whether `out.release()` was called. -/
structure ExportTrace where
  sinkCreated : Option (Nat × Nat × Nat)
  written : List Frame
  stored : List Frame
  released : Bool
deriving DecidableEq, Repr

def ExportTrace.empty : ExportTrace := ⟨none, [], [], false⟩

/-- The `while True` loop of `apply_and_save` (lines 371-379): read one
frame, composite it against the mappings, write it; stop when the read
fails. -/
def exportLoop (mappings : List Mapping) : List Frame → List Frame
  | [] => []
  | f :: rest => composite f mappings :: exportLoop mappings rest

/-- Lines 362-383 of `apply_and_save`, given an open session: rewind to
frame 0, construct the writer with the session's width, height and fps
(`sinkOk` says whether the environment let it open; the code never checks),
write one composited frame per source frame until the read fails, release
the writer, and rewind the capture to frame 0 again. -/
def exportRun (s : Session) (mappings : List Mapping) (sinkOk : Bool) :
    ExportTrace × Session :=
  let s1 : Session := { s with pos := 0 }
  let written := exportLoop mappings (s1.frames.drop s1.pos)
  let s2 : Session := { s1 with pos := s1.frames.length }
  (⟨some (s.width, s.height, s.fps), written, if sinkOk then written else [], true⟩,
   { s2 with pos := 0 })

/-- `VideoPlayer.apply_and_save` (lines 346-385): warn and stop when no
capture is open; silently return when the user cancels the save dialog;
otherwise stop playback, run the export, refresh the preview with
`update_frame`, and show the "Video saved successfully!" notice. -/
def apply_and_save (st : AppState) (savePath : Option String) (sinkOk : Bool) :
    SaveResult × AppState × ExportTrace :=
  match st.session with
  | none => (SaveResult.noVideoWarning, st, ExportTrace.empty)
  | some s =>
    match savePath with
    | none => (SaveResult.cancelled, st, ExportTrace.empty)
    | some _ =>
      let st1 : AppState := { st with playing := false }
      let res := exportRun s st1.mappings sinkOk
      let st2 : AppState := { st1 with session := some res.2 }
      (SaveResult.savedNotice, (update_frame st2).2, res.1)

-- Mapping-list management and loading ----------------------------------------

def MAX_MAPPINGS : Nat := 10

/-- `VideoPlayer.add_mapping` (lines 247-255) restricted to the list: a
request at or above `MAX_MAPPINGS` is rejected (warning box, list
untouched); otherwise the new mapping is inserted at index `len`. -/
def add_mapping (ms : List Mapping) (m : Mapping) : List Mapping :=
  if MAX_MAPPINGS ≤ ms.length then ms
  else ms.insertIdx ms.length m

/-- `VideoPlayer.remove_mapping` restricted to the list: `pop(index)`. -/
def remove_mapping (ms : List Mapping) (index : Nat) : List Mapping :=
  ms.eraseIdx index

/-- `VideoPlayer.load_new_video` (lines 283-294): the old capture is
released first (when one was open); then the new source is opened
(`newSource` is the environment's answer: `none` when
`cv2.VideoCapture(path)` does not open). On failure an error box is shown
and the method returns with the unopened capture in place; on success
playback stops and `update_frame` shows the first frame. Returns the new
state, whether the error box was shown, and whether the old capture was
released. -/
def load_new_video (st : AppState) (newSource : Option Session) :
    AppState × Bool × Bool :=
  let oldReleased := st.session.isSome
  match newSource with
  | none => ({ st with session := none }, true, oldReleased)
  | some s =>
    let st1 : AppState := { st with session := some s, playing := false }
    ((update_frame st1).2, false, oldReleased)

-- Shared helper lemmas --------------------------------------------------------

lemma compositePixel_nil (p : Color) : compositePixel [] p = p := rfl

lemma maskPixel_eq_false_of_inverted (m : Mapping) (p : Color)
    (h : m.upper.b < m.lower.b ∨ m.upper.g < m.lower.g ∨ m.upper.r < m.lower.r) :
    maskPixel m p = false := by
  simp only [maskPixel, decide_eq_false_iff_not]
  rintro ⟨h1, h2, h3, h4, h5, h6⟩
  rcases h with h | h | h <;> omega

lemma exportLoop_nil : ∀ l : List Frame, exportLoop [] l = l
  | [] => rfl
  | f :: rest => by
    simp only [exportLoop, exportLoop_nil rest]
    rfl

lemma length_eraseIdx_le {α : Type} (l : List α) (i : Nat) :
    (l.eraseIdx i).length ≤ l.length := by
  induction l generalizing i with
  | nil => simp [List.eraseIdx]
  | cons a rest ih =>
    cases i with
    | zero => simp [List.eraseIdx]
    | succ n =>
      simp only [List.eraseIdx, List.length_cons]
      exact Nat.succ_le_succ (ih n)

-- Claim theorems --------------------------------------------------------------

/-- C1: every mapping's mask is evaluated against the unmodified original
frame — each output pixel is `compositePixel` of the ORIGINAL pixel alone —
so for any pixel matched by both of two mappings applied in order
`[m1, m2]`, the output pixel is `m2.replacement` (last-match-wins), with no
constraint on `m1.replacement` (no cascading re-matching even when
`m1.replacement` lies inside `m2`'s range). -/
theorem C1_last_match_wins (F : Frame) (ms : List Mapping) (m1 m2 : Mapping)
    (i j : Nat) (p : Color) (hp : pixelAt F i j = some p)
    (h1 : maskPixel m1 p = true) (h2 : maskPixel m2 p = true) :
    pixelAt (composite F ms) i j = some (compositePixel ms p) ∧
    pixelAt (composite F [m1, m2]) i j = some m2.replacement := by
  constructor
  · rw [pixelAt_composite, hp]; rfl
  · rw [pixelAt_composite, hp]
    simp [compositePixel, h1, h2]

/-- C1 witness: a pixel `(5,5,5)` matched by both mappings, where the first
mapping's replacement `(7,7,7)` itself falls inside the second mapping's
range, still ends as the second mapping's replacement. -/
theorem C1_witness :
    pixelAt (composite [[Color.mk 5 5 5]]
        [Mapping.mk (Color.mk 0 0 0) (Color.mk 10 10 10) (Color.mk 7 7 7),
         Mapping.mk (Color.mk 0 0 0) (Color.mk 10 10 10) (Color.mk 99 0 0)]) 0 0 =
      some (Color.mk 99 0 0) :=
  (C1_last_match_wins [[Color.mk 5 5 5]]
    [Mapping.mk (Color.mk 0 0 0) (Color.mk 10 10 10) (Color.mk 7 7 7),
     Mapping.mk (Color.mk 0 0 0) (Color.mk 10 10 10) (Color.mk 99 0 0)]
    (Mapping.mk (Color.mk 0 0 0) (Color.mk 10 10 10) (Color.mk 7 7 7))
    (Mapping.mk (Color.mk 0 0 0) (Color.mk 10 10 10) (Color.mk 99 0 0))
    0 0 (Color.mk 5 5 5) rfl (by decide) (by decide)).2

/-- C2: with a single mapping, a pixel whose three channels all lie inside
the inclusive `[lower, upper]` bounds becomes the replacement color, and
any other pixel is left unchanged. -/
theorem C2_single_mapping (F : Frame) (m : Mapping) (i j : Nat) (p : Color)
    (hp : pixelAt F i j = some p) :
    pixelAt (composite F [m]) i j =
      some (if m.lower.b ≤ p.b ∧ p.b ≤ m.upper.b ∧ m.lower.g ≤ p.g ∧ p.g ≤ m.upper.g ∧
               m.lower.r ≤ p.r ∧ p.r ≤ m.upper.r
            then m.replacement else p) := by
  rw [pixelAt_composite, hp]
  simp [compositePixel, maskPixel]

/-- C2 witness: an in-range pixel is replaced. -/
theorem C2_witness :
    pixelAt (composite [[Color.mk 5 5 5]]
        [Mapping.mk (Color.mk 0 0 0) (Color.mk 10 10 10) (Color.mk 1 2 3)]) 0 0 =
      some (Color.mk 1 2 3) := by
  have h := C2_single_mapping [[Color.mk 5 5 5]]
    (Mapping.mk (Color.mk 0 0 0) (Color.mk 10 10 10) (Color.mk 1 2 3))
    0 0 (Color.mk 5 5 5) rfl
  simpa using h

/-- C3: compositing with the empty mapping list is the identity on every
frame; the operation is a total function with no failure mode. -/
theorem C3_empty_identity (F : Frame) : composite F [] = F := rfl

/-- C4: a mapping whose range is inverted on at least one channel matches
no pixel, so compositing with it alone leaves every frame unchanged;
inverted ranges are accepted, not rejected. -/
theorem C4_inverted_range (F : Frame) (m : Mapping)
    (h : m.upper.b < m.lower.b ∨ m.upper.g < m.lower.g ∨ m.upper.r < m.lower.r) :
    composite F [m] = F := by
  rw [composite_eq_map]
  have hk : compositePixel [m] = id := by
    funext p
    simp [compositePixel, maskPixel_eq_false_of_inverted m p h]
  rw [hk]
  simp

/-- C4 witness: an inverted range (`lower = (10,10,10)`, `upper = (0,0,0)`)
leaves a concrete frame untouched. -/
theorem C4_witness :
    composite [[Color.mk 5 5 5]]
        [Mapping.mk (Color.mk 10 10 10) (Color.mk 0 0 0) (Color.mk 1 1 1)] =
      [[Color.mk 5 5 5]] :=
  C4_inverted_range [[Color.mk 5 5 5]]
    (Mapping.mk (Color.mk 10 10 10) (Color.mk 0 0 0) (Color.mk 1 1 1))
    (by decide)

/-- C5 counterexample: for an opened source reporting zero frames (position
0 equals the total frame count 0), the first `nextFrame` does return
`endOfStream` and rewind, but the SUBSEQUENT `nextFrame` again returns
`endOfStream`, not frame 0 — so the claim as stated fails at this input. -/
theorem C5_counterexample :
    (nextFrame (nextFrame (AppState.mk (some (Session.mk [] 2 2 30 0)) true [])).2).1 =
      ReadResult.endOfStream := by decide

/-- C5 (amended): for an opened session whose position equals or exceeds
the total frame count, `nextFrame` returns `endOfStream`, rewinds the
position to 0 and stops playback; and PROVIDED the source has at least one
frame, a subsequent `nextFrame` returns frame 0. -/
theorem C5_end_of_stream_rewind (st : AppState) (s : Session)
    (hs : st.session = some s) (hpos : s.frames.length ≤ s.pos) :
    (nextFrame st).1 = ReadResult.endOfStream ∧
    (nextFrame st).2.session = some { s with pos := 0 } ∧
    (nextFrame st).2.playing = false ∧
    ∀ h : 0 < s.frames.length,
      (nextFrame (nextFrame st).2).1 = ReadResult.frame (s.frames.get ⟨0, h⟩) := by
  have h1 : nextFrame st =
      (ReadResult.endOfStream,
       { st with session := some { s with pos := 0 }, playing := false }) := by
    simp [nextFrame, hs, hpos]
  refine ⟨by rw [h1], by rw [h1], by rw [h1], ?_⟩
  intro h
  rw [h1]
  simp [nextFrame, Nat.not_le_of_lt h]

/-- C5 witness: a one-frame source at position 5 rewinds on `nextFrame`
and the next call yields frame 0. -/
theorem C5_witness :
    (nextFrame (AppState.mk (some (Session.mk [[[Color.mk 9 9 9]]] 1 1 30 5)) true [])).1 =
        ReadResult.endOfStream ∧
    (nextFrame (nextFrame
        (AppState.mk (some (Session.mk [[[Color.mk 9 9 9]]] 1 1 30 5)) true [])).2).1 =
      ReadResult.frame [[Color.mk 9 9 9]] := by
  have h := C5_end_of_stream_rewind
    (AppState.mk (some (Session.mk [[[Color.mk 9 9 9]]] 1 1 30 5)) true [])
    (Session.mk [[[Color.mk 9 9 9]]] 1 1 30 5) rfl (by decide)
  exact ⟨h.1, h.2.2.2 (by decide)⟩

/-- C6: `apply_and_save` with no open capture reports the "No Video"
warning and changes nothing; with an open capture but no destination path
(user cancelled the dialog) it silently returns with the state unchanged
and an empty export trace — no rewind, no sink creation, no writes. -/
theorem C6_no_source_and_cancel (st : AppState) (p : Option String) (sinkOk : Bool) :
    (st.session = none →
      apply_and_save st p sinkOk = (SaveResult.noVideoWarning, st, ExportTrace.empty)) ∧
    (st.session ≠ none →
      apply_and_save st none sinkOk = (SaveResult.cancelled, st, ExportTrace.empty)) := by
  constructor
  · intro h
    simp [apply_and_save, h]
  · intro h
    match hsess : st.session with
    | none => exact absurd hsess h
    | some s => simp [apply_and_save, hsess]

/-- C6 witness: the warning at a closed state, and the silent no-op on
cancel at an open state. -/
theorem C6_witness :
    apply_and_save (AppState.mk none false []) (some "out.mp4") true =
        (SaveResult.noVideoWarning, AppState.mk none false [], ExportTrace.empty) ∧
    apply_and_save (AppState.mk (some (Session.mk [] 2 2 30 0)) false []) none true =
        (SaveResult.cancelled, AppState.mk (some (Session.mk [] 2 2 30 0)) false [],
         ExportTrace.empty) :=
  ⟨(C6_no_source_and_cancel (AppState.mk none false []) (some "out.mp4") true).1 rfl,
   (C6_no_source_and_cancel (AppState.mk (some (Session.mk [] 2 2 30 0)) false [])
      (some "out.mp4") true).2 (by decide)⟩

/-- C7: at the failing input — an open one-frame session, a destination
chosen, a sink that cannot be created (`sinkOk = false`) — `apply_and_save`
still ends with the blocking "Video saved successfully!" notice and the
sink stored nothing: the code never checks the writer, so no WriteFailure
is signaled and the failure is reported as success. -/
theorem C7_failure_reported_as_success :
    (apply_and_save
        (AppState.mk (some (Session.mk [[[Color.mk 0 0 0]]] 1 1 30 0)) false [])
        (some "out.mp4") false).1 = SaveResult.savedNotice ∧
    (apply_and_save
        (AppState.mk (some (Session.mk [[[Color.mk 0 0 0]]] 1 1 30 0)) false [])
        (some "out.mp4") false).2.2.stored = [] := by
  constructor <;> rfl

/-- C8: exporting an open session with an empty mapping list opens the
sink with the session's width, height and frame rate, passes exactly the
source frames to the writer (one output frame per source frame, same pixel
grids, hence same frame count and dimensions), releases the sink, and the
export routine leaves the session rewound to frame 0. -/
theorem C8_empty_mappings_export (st : AppState) (s : Session) (path : String)
    (sinkOk : Bool) (hs : st.session = some s) (hm : st.mappings = []) :
    (apply_and_save st (some path) sinkOk).2.2.sinkCreated =
        some (s.width, s.height, s.fps) ∧
    (apply_and_save st (some path) sinkOk).2.2.written = s.frames ∧
    (apply_and_save st (some path) sinkOk).2.2.written.length = s.frames.length ∧
    (apply_and_save st (some path) sinkOk).2.2.released = true ∧
    (exportRun s st.mappings sinkOk).2.pos = 0 := by
  simp [apply_and_save, hs, hm, exportRun, exportLoop_nil]

/-- C8 witness: a concrete one-frame session exported with no mappings. -/
theorem C8_witness :
    (apply_and_save (AppState.mk (some (Session.mk [[[Color.mk 1 2 3]]] 1 1 30 0)) false [])
        (some "o.mp4") true).2.2.sinkCreated = some (1, 1, 30) ∧
    (apply_and_save (AppState.mk (some (Session.mk [[[Color.mk 1 2 3]]] 1 1 30 0)) false [])
        (some "o.mp4") true).2.2.written = [[[Color.mk 1 2 3]]] ∧
    (apply_and_save (AppState.mk (some (Session.mk [[[Color.mk 1 2 3]]] 1 1 30 0)) false [])
        (some "o.mp4") true).2.2.written.length = 1 ∧
    (apply_and_save (AppState.mk (some (Session.mk [[[Color.mk 1 2 3]]] 1 1 30 0)) false [])
        (some "o.mp4") true).2.2.released = true ∧
    (exportRun (Session.mk [[[Color.mk 1 2 3]]] 1 1 30 0) [] true).2.pos = 0 :=
  C8_empty_mappings_export
    (AppState.mk (some (Session.mk [[[Color.mk 1 2 3]]] 1 1 30 0)) false [])
    (Session.mk [[[Color.mk 1 2 3]]] 1 1 30 0) "o.mp4" true rfl rfl

/-- C9: given the invariant `length ≤ MAX_MAPPINGS`, an add request at a
full list of 10 mappings is rejected and leaves the list unchanged, and
both add and remove preserve `length ≤ MAX_MAPPINGS` (lengths are naturals,
so `0 ≤ length` is automatic). -/
theorem C9_mapping_limit (ms : List Mapping) (m : Mapping) (i : Nat)
    (hinv : ms.length ≤ MAX_MAPPINGS) :
    (ms.length = MAX_MAPPINGS → add_mapping ms m = ms) ∧
    (add_mapping ms m).length ≤ MAX_MAPPINGS ∧
    (remove_mapping ms i).length ≤ MAX_MAPPINGS := by
  refine ⟨?_, ?_, ?_⟩
  · intro h
    simp [add_mapping, h]
  · by_cases h : MAX_MAPPINGS ≤ ms.length
    · simpa [add_mapping, h] using hinv
    · rw [add_mapping, if_neg h, List.insertIdx_length_self]
      simp only [List.length_append, List.length_cons, List.length_nil]
      omega
  · exact le_trans (length_eraseIdx_le ms i) hinv

/-- C9 witness: adding to a full list of 10 mappings is a no-op and the
bounds hold at that concrete list. -/
theorem C9_witness :
    (add_mapping
        (List.replicate 10 (Mapping.mk (Color.mk 0 0 0) (Color.mk 0 0 0) (Color.mk 0 0 0)))
        (Mapping.mk (Color.mk 0 0 0) (Color.mk 0 0 0) (Color.mk 0 0 0)) =
      List.replicate 10 (Mapping.mk (Color.mk 0 0 0) (Color.mk 0 0 0) (Color.mk 0 0 0))) ∧
    (add_mapping
        (List.replicate 10 (Mapping.mk (Color.mk 0 0 0) (Color.mk 0 0 0) (Color.mk 0 0 0)))
        (Mapping.mk (Color.mk 0 0 0) (Color.mk 0 0 0) (Color.mk 0 0 0))).length ≤
      MAX_MAPPINGS ∧
    (remove_mapping
        (List.replicate 10 (Mapping.mk (Color.mk 0 0 0) (Color.mk 0 0 0) (Color.mk 0 0 0)))
        0).length ≤ MAX_MAPPINGS := by
  have h := C9_mapping_limit
    (List.replicate 10 (Mapping.mk (Color.mk 0 0 0) (Color.mk 0 0 0) (Color.mk 0 0 0)))
    (Mapping.mk (Color.mk 0 0 0) (Color.mk 0 0 0) (Color.mk 0 0 0)) 0 (by decide)
  exact ⟨h.1 (by decide), h.2.1, h.2.2⟩

/-- C10: a failed load is not atomic: with a session already open, loading
a source that cannot be opened releases the old capture first, shows the
error box, and leaves NO session open — the prior session is not
restored. -/
theorem C10_failed_load_drops_session (st : AppState) (s : Session)
    (hs : st.session = some s) :
    (load_new_video st none).1.session = none ∧
    (load_new_video st none).2.1 = true ∧
    (load_new_video st none).2.2 = true := by
  simp [load_new_video, hs]

/-- C10 witness: a concrete open state, failed load. -/
theorem C10_witness :
    (load_new_video (AppState.mk (some (Session.mk [] 1 1 30 0)) true []) none).1.session =
        none ∧
    (load_new_video (AppState.mk (some (Session.mk [] 1 1 30 0)) true []) none).2.1 = true ∧
    (load_new_video (AppState.mk (some (Session.mk [] 1 1 30 0)) true []) none).2.2 = true :=
  C10_failed_load_drops_session
    (AppState.mk (some (Session.mk [] 1 1 30 0)) true [])
    (Session.mk [] 1 1 30 0) rfl
